import Mathlib

/-!
Verification development for the CloudSave AI infrastructure cost-analysis
pipeline (repository `cloudlens-mvp`).

The TypeScript sources are shallowly embedded: JavaScript numbers are
modelled as `ℚ` (all arithmetic appearing here is decimal arithmetic on
values far below the float53 integer bound), counters and parsed integers
as `Int`/`Nat`, `undefined`-able record fields as `Option`, and exceptions
as `Except`.  `Math.round x` is `⌊x + 1/2⌋`, which agrees with the
JavaScript builtin on every real argument.

Source files embedded below:
- `lib/engine/rules.ts` (the 15 detection rules and `ALL_RULES`)
- `lib/utils/constants.ts` (`AWS_PRICING`, `APP_CONFIG`)
- `lib/engine/cost-calculator.ts` (`calculateCostSummary`, `buildOptimizationRoadmap`)
- `lib/parsers/zip-handler.ts` (`extractZip`, `isSupportedFile`, `mergeNormalizedInfra`)
- `lib/parsers/ecs-parser.ts` (`parseECSTask` and helpers)
- `lib/parsers/cdk-parser.ts` (the Lambda-scan assembly of `parseLambdaFunctions`)
- `lib/engine/anti-patterns.ts` is not part of the sources; its
  `detectAntiPatterns` entry point is modelled from the specification where
  marked below.
-/

namespace CloudLens

/-- Finding severity; the union type `'critical' | 'high' | 'medium' | 'low'`
of the source. -/
inductive Severity
  | critical
  | high
  | medium
  | low
deriving DecidableEq, Repr

/-- Finding category; the union type
`'overprovisioned' | 'architectural' | 'missing-feature' | 'env-mismatch'`
of the source (`missingFeature` stands for the string `"missing-feature"`,
`envMismatch` for `"env-mismatch"`). -/
inductive Category
  | overprovisioned
  | architectural
  | missingFeature
  | envMismatch
deriving DecidableEq, Repr

/-- JavaScript `Math.round`: round half away from zero upward,
`⌊x + 1/2⌋` for every real `x`. -/
def jround (x : ℚ) : ℤ := ⌊x + 1/2⌋

-- ==================== lib/utils/constants.ts ====================

namespace AWS_PRICING

namespace lambda
def perGBSecond : ℚ := 0.0000166667
def perRequest : ℚ := 0.0000002
end lambda

namespace rds
def multiAZMultiplier : ℚ := 2.0
/-- The `instances` record: monthly price by instance class, `none` when the
class is not a key of the record. -/
def instances (cls : String) : Option ℚ :=
  (([("db.t3.micro", (12.41 : ℚ)), ("db.t3.small", 24.82), ("db.t3.medium", 58.40),
     ("db.t3.large", 116.80), ("db.t3.xlarge", 233.60), ("db.t3.2xlarge", 467.20),
     ("db.r5.large", 172.80), ("db.r5.xlarge", 345.60), ("db.r5.2xlarge", 691.20),
     ("db.r6g.large", 155.52), ("db.r6g.xlarge", 311.04), ("db.m5.large", 155.52),
     ("db.m5.xlarge", 311.04)]).find? (fun p => p.1 == cls)).map (fun p => p.2)
def defaultMonthlyCost : ℚ := 100
end rds

namespace ecs
namespace fargate
def perVCPUHour : ℚ := 0.04048
def perGBHour : ℚ := 0.004445
end fargate
def hoursPerMonth : ℚ := 730
end ecs

namespace natGateway
def perGB : ℚ := 0.045
def monthlyBase : ℚ := 32.40
def assumedMonthlyDataGB : ℚ := 100
end natGateway

namespace nlb
def monthlyBase : ℚ := 16.20
def perLCUHour : ℚ := 0.006
end nlb

namespace s3
def standard : ℚ := 0.023
def ia : ℚ := 0.0125
def glacier : ℚ := 0.004
def assumedBucketSizeGB : ℚ := 500
end s3

namespace apiGateway
def rest : ℚ := 3.50
def http : ℚ := 1.00
def assumedMonthlyRequestsM : ℚ := 10
end apiGateway

namespace dynamodb
def provisionedReadCU : ℚ := 0.00013
def provisionedWriteCU : ℚ := 0.00065
def onDemandRead : ℚ := 0.25
def onDemandWrite : ℚ := 1.25
def defaultReadCapacity : Int := 100
def defaultWriteCapacity : Int := 100
end dynamodb

namespace elasticache
/-- The `nodes` record: monthly price by node type. -/
def nodes (t : String) : Option ℚ :=
  (([("cache.t3.micro", (12.41 : ℚ)), ("cache.t3.small", 24.82),
     ("cache.t3.medium", 49.64), ("cache.r5.large", 121.97),
     ("cache.r5.xlarge", 243.94), ("cache.r6g.large", 109.58)]).find?
    (fun p => p.1 == t)).map (fun p => p.2)
def defaultNodeCost : ℚ := 50
end elasticache

namespace cloudfront
def priceClassAll : ℚ := 0.0085
def priceClass100 : ℚ := 0.0050
def assumedMonthlyTransferGB : ℚ := 1000
end cloudfront

namespace ec2
def previousGenMonthlyCost : ℚ := 120
def currentGenMonthlyCost : ℚ := 80
end ec2

end AWS_PRICING

namespace APP_CONFIG
def maxFilesInZip : Nat := 50
end APP_CONFIG

/-- JavaScript `\w` character class: ASCII letters, digits, underscore. -/
def isWordChar (c : Char) : Bool := c.isAlphanum || c == '_'

-- ==================== lib/types.ts (resource records) ====================
-- The canonical Normalized Infrastructure Model.  Each record carries the
-- fields the extractors populate; numeric fields parsed with `parseInt` or
-- written as integer literals are `Int`, monetary values are `ℚ`.

/-- One Lambda function record of `NormalizedInfra.lambda.functions`. -/
structure LambdaFn where
  name : String
  memory : Int
  timeout : Int
  runtime : String
  provisioned : Bool
  architecture : String
deriving DecidableEq, Repr

/-- One RDS instance record of `NormalizedInfra.rds.instances`. -/
structure RDSInstance where
  name : String
  instanceClass : String
  engine : String
  multiAZ : Bool
  env : String
  storage : Int
deriving DecidableEq, Repr

/-- One ECS service record of `NormalizedInfra.ecs.services`. -/
structure ECSService where
  name : String
  desiredCount : Int
  cpu : Int
  memory : Int
  launchType : String
deriving DecidableEq, Repr

/-- One API Gateway record of `NormalizedInfra.apiGateway.apis`. -/
structure APIGatewayAPI where
  name : String
  type : String
  usesNLB : Bool
  usesVPCLink : Bool
deriving DecidableEq, Repr

/-- One S3 bucket record of `NormalizedInfra.s3.buckets`. -/
structure S3Bucket where
  name : String
  hasLifecyclePolicy : Bool
  hasIntelligentTiering : Bool
  versioningEnabled : Bool
  publicAccess : Bool
deriving DecidableEq, Repr

/-- One EC2 instance record of `NormalizedInfra.ec2.instances`. -/
structure EC2Instance where
  name : String
  instanceType : String
  env : String
deriving DecidableEq, Repr

/-- One DynamoDB table record of `NormalizedInfra.dynamodb.tables`. -/
structure DynamoDBTable where
  name : String
  billingMode : String
  readCapacity : Option Int
  writeCapacity : Option Int
deriving DecidableEq, Repr

/-- One CloudFront distribution record of
`NormalizedInfra.cloudfront.distributions`. -/
structure CloudFrontDist where
  name : String
  priceClass : String
deriving DecidableEq, Repr

/-- One NAT-gateway group record of `NormalizedInfra.nat.gateways`:
a named group carrying a total count. -/
structure NATGroup where
  name : String
  count : Int
deriving DecidableEq, Repr

/-- One ElastiCache cluster record of `NormalizedInfra.elasticache.clusters`. -/
structure ElastiCacheCluster where
  name : String
  nodeType : String
  numNodes : Int
  engine : String
deriving DecidableEq, Repr

/-- The Normalized Infrastructure Model.  In the source each optional section
is an object holding a single array field (`lambda?.functions`,
`rds?.instances`, ...); the wrapper object is flattened away, so a section is
`Option (List _)`: `none` is an absent section, `some l` a present one whose
array is `l`. -/
structure NormalizedInfra where
  lambda : Option (List LambdaFn) := none
  rds : Option (List RDSInstance) := none
  ecs : Option (List ECSService) := none
  apiGateway : Option (List APIGatewayAPI) := none
  s3 : Option (List S3Bucket) := none
  ec2 : Option (List EC2Instance) := none
  dynamodb : Option (List DynamoDBTable) := none
  cloudfront : Option (List CloudFrontDist) := none
  nat : Option (List NATGroup) := none
  elasticache : Option (List ElastiCacheCluster) := none
deriving DecidableEq, Repr

/-- A detected issue (Finding).  Costs are JavaScript numbers, embedded
as `ℚ`. -/
structure DetectedIssue where
  id : String
  service : String
  issue : String
  description : String
  severity : Severity
  category : Category
  currentConfig : String
  recommendedConfig : String
  currentCost : ℚ
  optimizedCost : ℚ
  saving : ℚ
  savingPercent : ℚ
  resourceName : String
deriving DecidableEq, Repr

/-- A detection rule: static metadata plus the pure `check` evaluation
function. -/
structure DetectionRule where
  id : String
  name : String
  service : String
  severity : Severity
  category : Category
  estimatedMonthlySaving : ℚ
  description : String
  check : NormalizedInfra → List DetectedIssue

-- ==================== lib/engine/rules.ts ====================

/-- `issueId`: `ruleId + "-" + resourceName.replace(/[^a-z0-9]/gi, "-").toLowerCase()`.
The regex class with the `i` flag is ASCII alphanumeric; `toLowerCase` is
per-character ASCII lower-casing on these names. -/
def issueId (ruleId : String) (resourceName : String) : String :=
  ruleId ++ "-" ++
    String.mk ((resourceName.toList.map fun c => if c.isAlphanum then c else '-').map
      Char.toLower)

/-- `savingPercent`: 0 when `current <= 0`, otherwise the percentage rounded
to one decimal place (`Math.round(x * 100 * 10) / 10`). -/
def savingPercent (current optimized : ℚ) : ℚ :=
  if current ≤ 0 then 0
  else (jround ((current - optimized) / current * 100 * 10) : ℚ) / 10

/-- The regex `AWS_PRICING.ec2.previousGenPatterns`
`/\b(t1\.|m1\.|m2\.|m3\.|c1\.|c3\.|r3\.|i2\.|hs1\.|cr1\.|m4\.)/` applied via
`.test`: some alternative occurs at a position preceded by a non-word
character (or the start of the string).  Every alternative begins with a
word character, so the boundary condition is exactly that the preceding
character, if any, is not a word character. -/
def previousGenPatternsTest (s : String) : Bool :=
  let pats : List (List Char) :=
    ["t1.", "m1.", "m2.", "m3.", "c1.", "c3.", "r3.", "i2.", "hs1.", "cr1.", "m4."].map
      String.toList
  let cs := s.toList
  (List.range cs.length).any fun i =>
    (decide (i = 0) || !isWordChar (cs.getD (i - 1) ' ')) &&
    pats.any fun p => (cs.drop i).take p.length == p

/-- Rule 1: Lambda Overprovisioned Memory — flags Lambda functions with
memory > 2048MB. -/
def lambdaOverprovisionedMemory : DetectionRule where
  id := "rule-01"
  name := "Lambda Overprovisioned Memory"
  service := "Lambda"
  severity := .high
  category := .overprovisioned
  estimatedMonthlySaving := 160
  description := "Lambda function has memory allocation exceeding 2048MB."
  check := fun infra =>
    (infra.lambda.getD []).flatMap fun fn =>
      if fn.memory > 2048 then
        let recommendedMemory : ℚ := 1024
        let requests : ℚ := 10000000
        let durationSec : ℚ := 0.2
        let currentCost : ℚ :=
          ((fn.memory : ℚ) / 1024) * durationSec * requests * AWS_PRICING.lambda.perGBSecond +
          requests * AWS_PRICING.lambda.perRequest
        let optimizedCost : ℚ :=
          (recommendedMemory / 1024) * durationSec * requests * AWS_PRICING.lambda.perGBSecond +
          requests * AWS_PRICING.lambda.perRequest
        let nm := fn.name
        let mem := fn.memory
        [{ id := issueId "rule-01" fn.name
           service := "Lambda"
           issue := "Overprovisioned Memory"
           description := s!"Function \"{nm}\" allocates {mem}MB but typical workloads rarely exceed 1024MB. Over-allocating memory increases cost without performance benefit once CPU/network are no longer the bottleneck."
           severity := .high
           currentConfig := s!"{mem}MB memory"
           recommendedConfig := "1024MB with ARM64 (Graviton2)"
           currentCost := (jround currentCost : ℚ)
           optimizedCost := (jround optimizedCost : ℚ)
           saving := (jround (currentCost - optimizedCost) : ℚ)
           savingPercent := savingPercent currentCost optimizedCost
           category := .overprovisioned
           resourceName := fn.name }]
      else []

/-- Rule 2: Lambda Long Timeout — flags Lambda functions with
timeout > 300 seconds. -/
def lambdaLongTimeout : DetectionRule where
  id := "rule-02"
  name := "Lambda Long Timeout"
  service := "Lambda"
  severity := .medium
  category := .overprovisioned
  estimatedMonthlySaving := 40
  description := "Lambda function has an excessively long timeout."
  check := fun infra =>
    (infra.lambda.getD []).flatMap fun fn =>
      if fn.timeout > 300 then
        let currentCost : ℚ := 40
        let optimizedCost : ℚ := 20
        let nm := fn.name
        let tmo := fn.timeout
        [{ id := issueId "rule-02" fn.name
           service := "Lambda"
           issue := "Excessively Long Timeout"
           description := s!"Function \"{nm}\" has a {tmo}s timeout (max allowed: 900s). Long timeouts increase cost when functions hang on errors, and indicate architectural issues. Most API-backed functions should complete in under 30s."
           severity := .medium
           currentConfig := s!"{tmo}s timeout"
           recommendedConfig := "30s timeout (or redesign for async processing)"
           currentCost := currentCost
           optimizedCost := optimizedCost
           saving := currentCost - optimizedCost
           savingPercent := savingPercent currentCost optimizedCost
           category := .overprovisioned
           resourceName := fn.name }]
      else []

/-- Rule 3: RDS MultiAZ in Dev/Staging — flags RDS instances with MultiAZ
enabled in non-prod environments. -/
def rdsMultiAZInDev : DetectionRule where
  id := "rule-03"
  name := "RDS MultiAZ in Non-Production"
  service := "RDS"
  severity := .critical
  category := .envMismatch
  estimatedMonthlySaving := 200
  description := "RDS instance has MultiAZ enabled in a non-production environment."
  check := fun infra =>
    (infra.rds.getD []).flatMap fun db =>
      if db.multiAZ ∧ db.env ≠ "prod" then
        let baseMonthly : ℚ :=
          (AWS_PRICING.rds.instances db.instanceClass).getD AWS_PRICING.rds.defaultMonthlyCost
        let currentCost : ℚ := baseMonthly * AWS_PRICING.rds.multiAZMultiplier
        let optimizedCost : ℚ := baseMonthly
        let nm := db.name
        let env := db.env
        let cls := db.instanceClass
        [{ id := issueId "rule-03" db.name
           service := "RDS"
           issue := "MultiAZ Enabled in Non-Production"
           description := s!"Database \"{nm}\" ({env}) has MultiAZ enabled, doubling its cost. MultiAZ provides synchronous replication for high availability — unnecessary for {env} environments where downtime is acceptable."
           severity := .critical
           currentConfig := s!"{cls} + MultiAZ ({env})"
           recommendedConfig := s!"{cls}, Single-AZ ({env})"
           currentCost := (jround currentCost : ℚ)
           optimizedCost := (jround optimizedCost : ℚ)
           saving := (jround (currentCost - optimizedCost) : ℚ)
           savingPercent := savingPercent currentCost optimizedCost
           category := .envMismatch
           resourceName := db.name }]
      else []

/-- Substring search over characters: the pattern occurs at some position. -/
def containsChars (pat : List Char) : List Char → Bool
  | [] => pat.isEmpty
  | c :: t => pat.isPrefixOf (c :: t) || containsChars pat t

/-- `String.includes` of JavaScript: substring containment. -/
def jsIncludes (s : String) (pat : String) : Bool := containsChars pat.toList s.toList

/-- Rule 4: RDS Oversized Instance in Dev — flags RDS instances using an
`xlarge` class in non-prod environments. -/
def rdsOversizedInDev : DetectionRule where
  id := "rule-04"
  name := "RDS Oversized Instance in Dev"
  service := "RDS"
  severity := .high
  category := .overprovisioned
  estimatedMonthlySaving := 300
  description := "RDS instance uses an oversized instance class in a dev environment."
  check := fun infra =>
    (infra.rds.getD []).flatMap fun db =>
      if db.env ≠ "prod" ∧ jsIncludes db.instanceClass "xlarge" then
        let currentCost : ℚ :=
          (AWS_PRICING.rds.instances db.instanceClass).getD AWS_PRICING.rds.defaultMonthlyCost
        let optimizedClass := "db.t3.medium"
        let optimizedCost : ℚ := (AWS_PRICING.rds.instances optimizedClass).getD 58.40
        let nm := db.name
        let env := db.env
        let cls := db.instanceClass
        [{ id := issueId "rule-04" db.name
           service := "RDS"
           issue := "Oversized Instance in Dev Environment"
           description := s!"Database \"{nm}\" uses {cls} in a {env} environment. Dev workloads rarely need more than db.t3.medium. Downsize to reduce compute cost while maintaining adequate performance for development."
           severity := .high
           currentConfig := s!"{cls} ({env})"
           recommendedConfig := s!"db.t3.medium ({env})"
           currentCost := (jround currentCost : ℚ)
           optimizedCost := (jround optimizedCost : ℚ)
           saving := (jround (currentCost - optimizedCost) : ℚ)
           savingPercent := savingPercent currentCost optimizedCost
           category := .overprovisioned
           resourceName := db.name }]
      else []

/-- Rule 5: ECS Over-Scaled in Non-Prod — flags ECS services with
`desiredCount > 2`.  The source computes
`const isNonProd = /dev|staging|test/i.test(svc.name);` but never uses the
binding: the firing condition is `svc.desiredCount > 2` alone, independent of
the service name. -/
def ecsOverScaled : DetectionRule where
  id := "rule-05"
  name := "ECS Over-Scaled in Non-Production"
  service := "ECS"
  severity := .high
  category := .overprovisioned
  estimatedMonthlySaving := 150
  description := "ECS service has more than 2 tasks in a non-production environment."
  check := fun infra =>
    (infra.ecs.getD []).flatMap fun svc =>
      if svc.desiredCount > 2 then
        let vcpu : ℚ := (svc.cpu : ℚ) / 1024
        let memGB : ℚ := (svc.memory : ℚ) / 1024
        let hourly : ℚ :=
          vcpu * AWS_PRICING.ecs.fargate.perVCPUHour + memGB * AWS_PRICING.ecs.fargate.perGBHour
        let currentCost : ℚ := hourly * AWS_PRICING.ecs.hoursPerMonth * (svc.desiredCount : ℚ)
        let optimizedCost : ℚ := hourly * AWS_PRICING.ecs.hoursPerMonth * 1
        let nm := svc.name
        let cnt := svc.desiredCount
        let cpu := svc.cpu
        let mem := svc.memory
        [{ id := issueId "rule-05" svc.name
           service := "ECS"
           issue := "Over-Scaled ECS Service"
           description := s!"ECS service \"{nm}\" runs {cnt} tasks. Non-production environments typically only need 1 task for testing. Running {cnt} tasks multiplies Fargate costs without benefit."
           severity := .high
           currentConfig := s!"{cnt} tasks, {cpu} CPU units, {mem}MB"
           recommendedConfig := "1 task for non-production environments"
           currentCost := (jround currentCost : ℚ)
           optimizedCost := (jround optimizedCost : ℚ)
           saving := (jround (currentCost - optimizedCost) : ℚ)
           savingPercent := savingPercent currentCost optimizedCost
           category := .overprovisioned
           resourceName := svc.name }]
      else []

/-- Rule 6: ECS Fargate CPU/Memory Over-Allocation — flags FARGATE services
with `cpu >= 4096` and `memory >= 8192`. -/
def ecsFargateWaste : DetectionRule where
  id := "rule-06"
  name := "ECS Fargate CPU/Memory Over-Allocated"
  service := "ECS"
  severity := .medium
  category := .overprovisioned
  estimatedMonthlySaving := 100
  description := "ECS Fargate task has very high CPU allocation relative to typical usage."
  check := fun infra =>
    (infra.ecs.getD []).flatMap fun svc =>
      if svc.launchType = "FARGATE" ∧ svc.cpu ≥ 4096 ∧ svc.memory ≥ 8192 then
        let vcpu : ℚ := (svc.cpu : ℚ) / 1024
        let memGB : ℚ := (svc.memory : ℚ) / 1024
        let hourly : ℚ :=
          vcpu * AWS_PRICING.ecs.fargate.perVCPUHour + memGB * AWS_PRICING.ecs.fargate.perGBHour
        let currentCost : ℚ := hourly * AWS_PRICING.ecs.hoursPerMonth
        let optimizedVCPU : ℚ := 2
        let optimizedMemGB : ℚ := 4
        let optimizedHourly : ℚ :=
          optimizedVCPU * AWS_PRICING.ecs.fargate.perVCPUHour +
          optimizedMemGB * AWS_PRICING.ecs.fargate.perGBHour
        let optimizedCost : ℚ := optimizedHourly * AWS_PRICING.ecs.hoursPerMonth
        let nm := svc.name
        let cpu := svc.cpu
        let mem := svc.memory
        [{ id := issueId "rule-06" svc.name
           service := "ECS"
           issue := "Fargate Task Over-Allocated"
           description := s!"Service \"{nm}\" allocates {cpu} CPU units ({vcpu} vCPU) and {mem}MB. Based on typical application patterns, this is over-provisioned. Right-sizing to 2 vCPU / 4GB reduces cost significantly."
           severity := .medium
           currentConfig := s!"{cpu} CPU units, {mem}MB memory"
           recommendedConfig := "2048 CPU units (2 vCPU), 4096MB — measure then adjust"
           currentCost := (jround currentCost : ℚ)
           optimizedCost := (jround optimizedCost : ℚ)
           saving := (jround (currentCost - optimizedCost) : ℚ)
           savingPercent := savingPercent currentCost optimizedCost
           category := .overprovisioned
           resourceName := svc.name }]
      else []

/-- Rule 7: API Gateway + NLB — flags API Gateway paired with a Network Load
Balancer. -/
def apiGatewayNLB : DetectionRule where
  id := "rule-07"
  name := "API Gateway with Unnecessary NLB"
  service := "API Gateway"
  severity := .high
  category := .architectural
  estimatedMonthlySaving := 180
  description := "API Gateway is paired with a Network Load Balancer, adding unnecessary cost."
  check := fun infra =>
    (infra.apiGateway.getD []).flatMap fun api =>
      if api.usesNLB then
        let nlbMonthly : ℚ :=
          AWS_PRICING.nlb.monthlyBase + 730 * AWS_PRICING.nlb.perLCUHour * 10
        let nm := api.name
        let ty := api.type
        [{ id := issueId "rule-07" api.name
           service := "API Gateway"
           issue := "NLB + API Gateway Anti-Pattern"
           description := s!"API \"{nm}\" uses a Network Load Balancer with API Gateway. NLBs add ~$32/month+ and are unnecessary when API Gateway can directly integrate with ALB, Lambda, or HTTP endpoints via VPC Link with lower cost."
           severity := .high
           currentConfig := s!"{ty} API + NLB + VPC Link"
           recommendedConfig := "API Gateway HTTP API with direct Lambda or ALB integration"
           currentCost := (jround (nlbMonthly + 35) : ℚ)
           optimizedCost := 35
           saving := (jround nlbMonthly : ℚ)
           savingPercent := savingPercent (nlbMonthly + 35) 35
           category := .architectural
           resourceName := api.name }]
      else []

/-- Rule 8: API Gateway REST vs HTTP API — flags REST APIs not paired with an
NLB. -/
def apiGatewayRESTvsHTTP : DetectionRule where
  id := "rule-08"
  name := "API Gateway REST Instead of HTTP API"
  service := "API Gateway"
  severity := .medium
  category := .architectural
  estimatedMonthlySaving := 70
  description := "API Gateway REST API is used where the cheaper HTTP API would suffice."
  check := fun infra =>
    (infra.apiGateway.getD []).flatMap fun api =>
      if api.type = "REST" ∧ ¬ api.usesNLB then
        let requestsM : ℚ := AWS_PRICING.apiGateway.assumedMonthlyRequestsM
        let currentCost : ℚ := requestsM * AWS_PRICING.apiGateway.rest
        let optimizedCost : ℚ := requestsM * AWS_PRICING.apiGateway.http
        let nm := api.name
        [{ id := issueId "rule-08" api.name
           service := "API Gateway"
           issue := "REST API — Consider Migrating to HTTP API"
           description := s!"API \"{nm}\" uses REST API ($3.50/M requests) vs HTTP API ($1.00/M requests). HTTP API supports Lambda proxy, JWT auth, and CORS natively — sufficient for most use cases at 71% lower cost."
           severity := .medium
           currentConfig := "REST API ($3.50/million requests)"
           recommendedConfig := "HTTP API ($1.00/million requests)"
           currentCost := (jround currentCost : ℚ)
           optimizedCost := (jround optimizedCost : ℚ)
           saving := (jround (currentCost - optimizedCost) : ℚ)
           savingPercent := savingPercent currentCost optimizedCost
           category := .architectural
           resourceName := api.name }]
      else []

/-- Rule 9: S3 No Lifecycle Policy — flags buckets without lifecycle
policies. -/
def s3NoLifecycle : DetectionRule where
  id := "rule-09"
  name := "S3 Missing Lifecycle Policy"
  service := "S3"
  severity := .medium
  category := .missingFeature
  estimatedMonthlySaving := 50
  description := "S3 bucket has no lifecycle policy, allowing objects to accumulate indefinitely."
  check := fun infra =>
    (infra.s3.getD []).flatMap fun bucket =>
      if ¬ bucket.hasLifecyclePolicy then
        let sizeGB : ℚ := AWS_PRICING.s3.assumedBucketSizeGB
        let currentCost : ℚ := sizeGB * AWS_PRICING.s3.standard
        let optimizedCost : ℚ :=
          sizeGB * 0.4 * AWS_PRICING.s3.standard +
          sizeGB * 0.4 * AWS_PRICING.s3.ia +
          sizeGB * 0.2 * AWS_PRICING.s3.glacier
        let nm := bucket.name
        [{ id := issueId "rule-09" bucket.name
           service := "S3"
           issue := "No Lifecycle Policy"
           description := s!"Bucket \"{nm}\" has no lifecycle policy. Without lifecycle rules, objects remain in S3 Standard indefinitely. Transitioning older objects to S3 Infrequent Access or Glacier can reduce storage costs by 40-80%."
           severity := .medium
           currentConfig := "S3 Standard — no lifecycle transitions"
           recommendedConfig := "Lifecycle: 30d → S3-IA, 90d → Glacier"
           currentCost := (jround currentCost : ℚ)
           optimizedCost := (jround optimizedCost : ℚ)
           saving := (jround (currentCost - optimizedCost) : ℚ)
           savingPercent := savingPercent currentCost optimizedCost
           category := .missingFeature
           resourceName := bucket.name }]
      else []

/-- Rule 10: S3 No Intelligent Tiering — flags buckets that have a lifecycle
policy but no Intelligent Tiering (complement of rule 9, not a duplicate). -/
def s3NoIntelligentTiering : DetectionRule where
  id := "rule-10"
  name := "S3 Missing Intelligent Tiering"
  service := "S3"
  severity := .low
  category := .missingFeature
  estimatedMonthlySaving := 30
  description := "S3 bucket does not use Intelligent Tiering for automatic cost optimization."
  check := fun infra =>
    (infra.s3.getD []).flatMap fun bucket =>
      if ¬ bucket.hasIntelligentTiering ∧ bucket.hasLifecyclePolicy then
        let nm := bucket.name
        [{ id := issueId "rule-10" bucket.name
           service := "S3"
           issue := "Intelligent Tiering Not Enabled"
           description := s!"Bucket \"{nm}\" could benefit from S3 Intelligent-Tiering, which automatically moves objects between access tiers based on usage patterns. No retrieval fees; saves ~15-30% for objects with variable access frequency."
           severity := .low
           currentConfig := "S3 Standard without Intelligent Tiering"
           recommendedConfig := "S3 Intelligent-Tiering for objects > 128KB"
           currentCost := 115
           optimizedCost := 80
           saving := 35
           savingPercent := 30
           category := .missingFeature
           resourceName := bucket.name }]
      else []

/-- Rule 11: NAT Gateway Overuse — flags NAT-gateway groups with count > 1. -/
def natGatewayOveruse : DetectionRule where
  id := "rule-11"
  name := "NAT Gateway Overuse in Non-Production"
  service := "NAT Gateway"
  severity := .high
  category := .overprovisioned
  estimatedMonthlySaving := 90
  description := "Multiple NAT Gateways exist in a non-production environment."
  check := fun infra =>
    (infra.nat.getD []).flatMap fun natGroup =>
      if natGroup.count > 1 then
        let costPerNAT : ℚ :=
          AWS_PRICING.natGateway.monthlyBase +
          AWS_PRICING.natGateway.perGB * AWS_PRICING.natGateway.assumedMonthlyDataGB
        let currentCost : ℚ := costPerNAT * (natGroup.count : ℚ)
        let optimizedCost : ℚ := costPerNAT * 1
        let cnt := natGroup.count
        let costPerNATRounded := jround costPerNAT
        [{ id := issueId "rule-11" natGroup.name
           service := "NAT Gateway"
           issue := s!"{cnt} NAT Gateways Detected"
           description := s!"{cnt} NAT Gateways are deployed, costing ~${costPerNATRounded}/month each. In non-production environments, a single NAT Gateway is sufficient. Each additional NAT Gateway adds ~$32-65/month in base + data transfer costs."
           severity := .high
           currentConfig := s!"{cnt} NAT Gateways"
           recommendedConfig := "1 NAT Gateway for non-production (or NAT instance for dev)"
           currentCost := (jround currentCost : ℚ)
           optimizedCost := (jround optimizedCost : ℚ)
           saving := (jround (currentCost - optimizedCost) : ℚ)
           savingPercent := savingPercent currentCost optimizedCost
           category := .overprovisioned
           resourceName := natGroup.name }]
      else []

/-- Rule 12: DynamoDB Provisioned Capacity — flags tables with
`billingMode === "PROVISIONED"`. -/
def dynamoDBProvisioned : DetectionRule where
  id := "rule-12"
  name := "DynamoDB Provisioned Capacity (Variable Workload)"
  service := "DynamoDB"
  severity := .medium
  category := .architectural
  estimatedMonthlySaving := 60
  description := "DynamoDB table uses PROVISIONED billing, which can be wasteful for variable workloads."
  check := fun infra =>
    (infra.dynamodb.getD []).flatMap fun table =>
      if table.billingMode = "PROVISIONED" then
        let rcu : Int := table.readCapacity.getD AWS_PRICING.dynamodb.defaultReadCapacity
        let wcu : Int := table.writeCapacity.getD AWS_PRICING.dynamodb.defaultWriteCapacity
        let currentCost : ℚ :=
          ((rcu : ℚ) * AWS_PRICING.dynamodb.provisionedReadCU +
            (wcu : ℚ) * AWS_PRICING.dynamodb.provisionedWriteCU) *
          AWS_PRICING.ecs.hoursPerMonth
        let optimizedCost : ℚ :=
          10 * AWS_PRICING.dynamodb.onDemandRead + 5 * AWS_PRICING.dynamodb.onDemandWrite
        let nm := table.name
        [{ id := issueId "rule-12" table.name
           service := "DynamoDB"
           issue := "Provisioned Capacity — Consider On-Demand"
           description := s!"Table \"{nm}\" uses PROVISIONED billing ({rcu} RCU, {wcu} WCU). For variable or unpredictable workloads, PAY_PER_REQUEST (On-Demand) eliminates waste from unused capacity. Switch if your workload varies more than 2x throughout the day."
           severity := .medium
           currentConfig := s!"PROVISIONED: {rcu} RCU, {wcu} WCU"
           recommendedConfig := "PAY_PER_REQUEST (On-Demand) — no capacity planning needed"
           currentCost := (jround currentCost : ℚ)
           optimizedCost := (jround optimizedCost : ℚ)
           saving := (jround (max 0 (currentCost - optimizedCost)) : ℚ)
           savingPercent := savingPercent currentCost optimizedCost
           category := .architectural
           resourceName := table.name }]
      else []

/-- Rule 13: ElastiCache Oversized — flags clusters with a `large` node type
and more than 2 nodes. -/
def elasticacheOversized : DetectionRule where
  id := "rule-13"
  name := "ElastiCache Oversized Cluster"
  service := "ElastiCache"
  severity := .medium
  category := .overprovisioned
  estimatedMonthlySaving := 120
  description := "ElastiCache cluster uses large node types with multiple nodes unnecessarily."
  check := fun infra =>
    (infra.elasticache.getD []).flatMap fun cluster =>
      let isLarge := jsIncludes cluster.nodeType "large"
      if isLarge ∧ cluster.numNodes > 2 then
        let nodeCost : ℚ :=
          (AWS_PRICING.elasticache.nodes cluster.nodeType).getD
            AWS_PRICING.elasticache.defaultNodeCost
        let currentCost : ℚ := nodeCost * (cluster.numNodes : ℚ)
        let optimizedNodeType := "cache.t3.medium"
        let optimizedNodeCost : ℚ := (AWS_PRICING.elasticache.nodes optimizedNodeType).getD 49.64
        let optimizedCost : ℚ := optimizedNodeCost * 2
        let nm := cluster.name
        let nn := cluster.numNodes
        let nt := cluster.nodeType
        let eng := cluster.engine
        [{ id := issueId "rule-13" cluster.name
           service := "ElastiCache"
           issue := "Oversized ElastiCache Cluster"
           description := s!"Cluster \"{nm}\" uses {nn}x {nt} nodes. Unless you have verified memory/throughput requirements at this scale, consider starting with 2x cache.t3.medium and scaling based on CloudWatch metrics."
           severity := .medium
           currentConfig := s!"{nn}x {nt} ({eng})"
           recommendedConfig := "2x cache.t3.medium — scale up with data"
           currentCost := (jround currentCost : ℚ)
           optimizedCost := (jround optimizedCost : ℚ)
           saving := (jround (currentCost - optimizedCost) : ℚ)
           savingPercent := savingPercent currentCost optimizedCost
           category := .overprovisioned
           resourceName := cluster.name }]
      else []

/-- Rule 14: CloudFront PriceClass_All — flags distributions whose price class
is `PriceClass_All` or `ALL`. -/
def cloudfrontPriceClass : DetectionRule where
  id := "rule-14"
  name := "CloudFront PriceClass_All (Global Edge Network)"
  service := "CloudFront"
  severity := .low
  category := .overprovisioned
  estimatedMonthlySaving := 25
  description := "CloudFront distribution uses PriceClass_All, enabling the most expensive edge locations."
  check := fun infra =>
    (infra.cloudfront.getD []).flatMap fun dist =>
      if dist.priceClass = "PriceClass_All" ∨ dist.priceClass = "ALL" then
        let transferGB : ℚ := AWS_PRICING.cloudfront.assumedMonthlyTransferGB
        let currentCost : ℚ := transferGB * AWS_PRICING.cloudfront.priceClassAll
        let optimizedCost : ℚ := transferGB * AWS_PRICING.cloudfront.priceClass100
        let nm := dist.name
        [{ id := issueId "rule-14" dist.name
           service := "CloudFront"
           issue := "PriceClass_All — Consider Regional Price Class"
           description := s!"Distribution \"{nm}\" uses PriceClass_All, routing via all global edge locations including South America and Australia (most expensive). If your users are primarily in US/EU/Asia, PriceClass_200 or PriceClass_100 reduces transfer costs significantly."
           severity := .low
           currentConfig := "PriceClass_All (global edge network)"
           recommendedConfig := "PriceClass_100 (US, Canada, Europe, Asia) or PriceClass_200"
           currentCost := (jround currentCost : ℚ)
           optimizedCost := (jround optimizedCost : ℚ)
           saving := (jround (currentCost - optimizedCost) : ℚ)
           savingPercent := savingPercent currentCost optimizedCost
           category := .overprovisioned
           resourceName := dist.name }]
      else []

/-- `instanceType.replace(/^m4\./, "m5.")` and its siblings: replace an
anchored literal leading pattern once. -/
def replaceLeading (s pat repl : String) : String :=
  if s.startsWith pat then repl ++ s.drop pat.length else s

/-- The chained `.replace` calls of rule 15 mapping a previous-generation
instance type to its modern equivalent. -/
def modernEquivalentOf (t : String) : String :=
  replaceLeading (replaceLeading (replaceLeading (replaceLeading (replaceLeading
    (replaceLeading t "m4." "m5.") "m3." "m5.") "c3." "c5.") "r3." "r5.")
    "m1." "m5.") "t1." "t3."

/-- Rule 15: EC2 Previous Generation Instance — flags instances whose type
matches the previous-generation pattern regex. -/
def ec2PreviousGen : DetectionRule where
  id := "rule-15"
  name := "EC2 Previous Generation Instance Type"
  service := "EC2"
  severity := .medium
  category := .overprovisioned
  estimatedMonthlySaving := 80
  description := "EC2 instance uses a previous generation instance type with worse price-performance."
  check := fun infra =>
    (infra.ec2.getD []).flatMap fun inst =>
      if previousGenPatternsTest inst.instanceType then
        let currentCost : ℚ := AWS_PRICING.ec2.previousGenMonthlyCost
        let optimizedCost : ℚ := AWS_PRICING.ec2.currentGenMonthlyCost
        let modernEquivalent := modernEquivalentOf inst.instanceType
        let nm := inst.name
        let ty := inst.instanceType
        [{ id := issueId "rule-15" inst.name
           service := "EC2"
           issue := "Previous Generation Instance Type"
           description := s!"Instance \"{nm}\" uses {ty}, a previous-generation type. AWS current-generation instances ({modernEquivalent}) offer 10-40% better price-performance. Migration is typically a stop-restart operation."
           severity := .medium
           currentConfig := s!"{ty} (previous generation)"
           recommendedConfig := s!"{modernEquivalent} (current generation, ~33% cheaper/faster)"
           currentCost := currentCost
           optimizedCost := optimizedCost
           saving := currentCost - optimizedCost
           savingPercent := savingPercent currentCost optimizedCost
           category := .overprovisioned
           resourceName := inst.name }]
      else []

/-- All 15 detection rules, in the priority order of the source registry. -/
def ALL_RULES : List DetectionRule :=
  [lambdaOverprovisionedMemory,
   lambdaLongTimeout,
   rdsMultiAZInDev,
   rdsOversizedInDev,
   ecsOverScaled,
   ecsFargateWaste,
   apiGatewayNLB,
   apiGatewayRESTvsHTTP,
   s3NoLifecycle,
   s3NoIntelligentTiering,
   natGatewayOveruse,
   dynamoDBProvisioned,
   elasticacheOversized,
   cloudfrontPriceClass,
   ec2PreviousGen]

-- ==================== lib/engine/cost-calculator.ts ====================

/-- One per-service entry of the cost breakdown. -/
structure CostBreakdown where
  service : String
  currentMonthlyCost : ℚ
  optimizedMonthlyCost : ℚ
  monthlySaving : ℚ
  annualSaving : ℚ
deriving DecidableEq, Repr

/-- The aggregated cost summary. -/
structure CostSummary where
  totalCurrentCost : ℚ
  totalOptimizedCost : ℚ
  totalMonthlySaving : ℚ
  totalAnnualSaving : ℚ
  savingPercent : ℚ
  breakdown : List CostBreakdown
deriving DecidableEq, Repr

/-- The keys of the `byService` map in first-insertion order: a JavaScript
`Map` iterates its keys in the order they were first inserted, here the order
of first occurrence of each service name in `issues`. -/
def serviceKeys (issues : List DetectedIssue) : List String :=
  issues.foldl (fun acc i => if i.service ∈ acc then acc else acc ++ [i.service]) []

/-- The breakdown entry one service group of `calculateCostSummary`
produces: the group of a key of the `byService` map holds its issues in
encounter order, i.e. `issues.filter`; the per-service sums are rounded at
aggregation time. -/
def breakdownEntry (issues : List DetectedIssue) (service : String) : CostBreakdown :=
  let serviceIssues := issues.filter (fun i => i.service == service)
  let currentMonthlyCost := (serviceIssues.map (fun i => i.currentCost)).sum
  let optimizedMonthlyCost := (serviceIssues.map (fun i => i.optimizedCost)).sum
  let monthlySaving := currentMonthlyCost - optimizedMonthlyCost
  { service := service
    currentMonthlyCost := (jround currentMonthlyCost : ℚ)
    optimizedMonthlyCost := (jround optimizedMonthlyCost : ℚ)
    monthlySaving := (jround monthlySaving : ℚ)
    annualSaving := (jround (monthlySaving * 12) : ℚ) }

/-- The per-service breakdown of `calculateCostSummary`, sorted by monthly
saving descending (`Array.prototype.sort` is stable and the comparator is
`b.monthlySaving - a.monthlySaving`). -/
def sortedBreakdown (issues : List DetectedIssue) : List CostBreakdown :=
  ((serviceKeys issues).map (breakdownEntry issues)).mergeSort
    (fun a b => decide (b.monthlySaving ≤ a.monthlySaving))

/-- `calculateCostSummary`: groups issues by exact service name, builds one
rounded breakdown entry per service, sorts the breakdown, and totals the
rounded entries. -/
def calculateCostSummary (issues : List DetectedIssue) : CostSummary :=
  let sorted := sortedBreakdown issues
  let totalCurrentCost := (sorted.map (fun b => b.currentMonthlyCost)).sum
  let totalOptimizedCost := (sorted.map (fun b => b.optimizedMonthlyCost)).sum
  let totalMonthlySaving := totalCurrentCost - totalOptimizedCost
  let totalAnnualSaving := totalMonthlySaving * 12
  let pct :=
    if totalCurrentCost > 0 then
      (jround (totalMonthlySaving / totalCurrentCost * 100 * 10) : ℚ) / 10
    else 0
  { totalCurrentCost := (jround totalCurrentCost : ℚ)
    totalOptimizedCost := (jround totalOptimizedCost : ℚ)
    totalMonthlySaving := (jround totalMonthlySaving : ℚ)
    totalAnnualSaving := (jround totalAnnualSaving : ℚ)
    savingPercent := pct
    breakdown := sorted }

/-- The optimization roadmap: issues partitioned by implementation effort. -/
structure OptimizationRoadmap where
  quickWins : List DetectedIssue
  mediumEffort : List DetectedIssue
  needsPlanning : List DetectedIssue
deriving DecidableEq, Repr

/-- The body of the `for (const issue of issues)` classification loop of
`buildOptimizationRoadmap`, pushing the issue onto exactly one of the three
lists. -/
def roadmapStep (acc : OptimizationRoadmap) (issue : DetectedIssue) : OptimizationRoadmap :=
  if issue.category = Category.envMismatch ∨
     (issue.service = "CloudFront" ∧ issue.severity = Severity.low) ∨
     (issue.service = "S3" ∧ issue.category = Category.missingFeature) then
    { acc with quickWins := acc.quickWins ++ [issue] }
  else if issue.category = Category.overprovisioned ∧
          (issue.service = "Lambda" ∨ issue.service = "RDS" ∨ issue.service = "ECS") then
    { acc with mediumEffort := acc.mediumEffort ++ [issue] }
  else
    { acc with needsPlanning := acc.needsPlanning ++ [issue] }

/-- `buildOptimizationRoadmap`: the fixed classification loop of the source. -/
def buildOptimizationRoadmap (issues : List DetectedIssue) : OptimizationRoadmap :=
  issues.foldl roadmapStep { quickWins := [], mediumEffort := [], needsPlanning := [] }

-- ==================== lib/parsers/zip-handler.ts ====================

/-- One member of a loaded ZIP archive, as JSZip presents it: a name, a
directory flag, and the result of decoding the member as a string
(`none` when `file.async("string")` rejects, i.e. a non-text-decodable
member). -/
structure ZipEntry where
  name : String
  dir : Bool
  text : Option String
deriving DecidableEq, Repr

/-- A file extracted from a ZIP (`size` is `content.length`). -/
structure ExtractedFile where
  name : String
  content : String
  size : Nat
deriving DecidableEq, Repr

/-- JavaScript `endsWith`: the pattern is a suffix of the characters. -/
def endsWithChars (cs : List Char) (post : String) : Bool := post.toList.isSuffixOf cs

/-- `isSupportedFile`: extension allow-list on the lower-cased name
(`name.toLowerCase().endsWith(...)`; lower-casing is per-character ASCII on
these names). -/
def isSupportedFile (name : String) : Bool :=
  let lower := name.toList.map Char.toLower
  endsWithChars lower ".ts" || endsWithChars lower ".js" || endsWithChars lower ".py" ||
  endsWithChars lower ".tf" || endsWithChars lower ".tf.json" || endsWithChars lower ".yaml" ||
  endsWithChars lower ".yml" || endsWithChars lower ".json" || endsWithChars lower ".png" ||
  endsWithChars lower ".jpg" || endsWithChars lower ".svg"

/-- The body of the per-member loop of `extractZip`: skip directories,
unsupported extensions, and members whose string decoding rejects (the
per-member `try/catch`); push every other member. -/
def zipStep (files : List ExtractedFile) (file : ZipEntry) : List ExtractedFile :=
  if file.dir then files
  else if ¬ isSupportedFile file.name then files
  else
    match file.text with
    | some content =>
        files ++ [{ name := file.name, content := content, size := content.length }]
    | none => files

/-- `extractZip` after the archive has been loaded: `entries` is
`Object.entries(zip.files)` in iteration order (directories included — the
member count check counts them too).  Throwing is `Except.error`. -/
def extractZip (entries : List ZipEntry) : Except String (List ExtractedFile) :=
  let fileCount := entries.length
  if fileCount > APP_CONFIG.maxFilesInZip then
    let maxFiles := APP_CONFIG.maxFilesInZip
    .error s!"ZIP contains {fileCount} files, exceeding the limit of {maxFiles}."
  else
    .ok (entries.foldl zipStep [])

/-- The per-collection merge step of `mergeNormalizedInfra`: a present,
non-empty incoming array is appended to the accumulated array (created on
first use); an absent or empty incoming array leaves the accumulator
unchanged. -/
def mergeColl {α : Type} (acc : Option (List α)) (inc : Option (List α)) : Option (List α) :=
  match inc with
  | some l =>
      if l.isEmpty then acc
      else
        match acc with
        | none => some l
        | some a => some (a ++ l)
  | none => acc

/-- The NAT-gateway merge step of `mergeNormalizedInfra`: the first present,
non-empty incoming array is copied; every later one is collapsed with the
accumulated first group into a single group whose count is
`(existing[0].count ?? 0) + sum(incoming counts)` and whose name is
`existing[0].name ?? "nat-gateway"`. -/
def mergeNat (acc : Option (List NATGroup)) (inc : Option (List NATGroup)) :
    Option (List NATGroup) :=
  match inc with
  | some g =>
      if g.isEmpty then acc
      else
        match acc with
        | none => some g
        | some existing =>
            let existingGW := existing.head?
            let newCount := g.foldl (fun s gw => s + gw.count) 0
            some [{ name := (existingGW.map (fun gw => gw.name)).getD "nat-gateway",
                    count := (existingGW.map (fun gw => gw.count)).getD 0 + newCount }]
  | none => acc

/-- One iteration of the `for (const infra of infraList)` loop of
`mergeNormalizedInfra`. -/
def mergeStep (merged : NormalizedInfra) (infra : NormalizedInfra) : NormalizedInfra :=
  { lambda := mergeColl merged.lambda infra.lambda
    rds := mergeColl merged.rds infra.rds
    ecs := mergeColl merged.ecs infra.ecs
    apiGateway := mergeColl merged.apiGateway infra.apiGateway
    s3 := mergeColl merged.s3 infra.s3
    ec2 := mergeColl merged.ec2 infra.ec2
    dynamodb := mergeColl merged.dynamodb infra.dynamodb
    cloudfront := mergeColl merged.cloudfront infra.cloudfront
    nat := mergeNat merged.nat infra.nat
    elasticache := mergeColl merged.elasticache infra.elasticache }

/-- `mergeNormalizedInfra`: fold the merge loop over the input list starting
from the empty model. -/
def mergeNormalizedInfra (infraList : List NormalizedInfra) : NormalizedInfra :=
  infraList.foldl mergeStep {}

-- ==================== lib/parsers/ecs-parser.ts ====================

/-- A parsed JSON document.  `JSON.parse` of a valid document yields this
value; numeric literals of ECS task definitions (`cpu`, `memory`) are
integral and are modelled as `Int`. -/
inductive Json where
  | null
  | bool (b : Bool)
  | num (n : Int)
  | str (s : String)
  | arr (elems : List Json)
  | obj (fields : List (String × Json))

/-- JavaScript property access `value[key]` on a parsed JSON value: a match
in an object, `undefined` (`none`) otherwise.  (Property access on the
receivers `null`/`undefined` throws in JavaScript; such receivers do not
arise below.) -/
def getField : Json → String → Option Json
  | .obj fields, key => (fields.find? (fun p => p.1 == key)).map (fun p => p.2)
  | _, _ => none

/-- JavaScript `parseInt(s, 10)`: skip leading whitespace, an optional sign,
then the maximal run of decimal digits; `NaN` (`none`) when that run is
empty. -/
def jsParseInt (s : String) : Option Int :=
  let cs := s.toList.dropWhile (fun c => c.isWhitespace)
  let signAndRest : Int × List Char :=
    match cs with
    | '-' :: r => (-1, r)
    | '+' :: r => (1, r)
    | r => (1, r)
  let digits := signAndRest.2.takeWhile (fun c => c.isDigit)
  if digits.isEmpty then none
  else some (signAndRest.1 * digits.foldl (fun a c => a * 10 + ((c.toNat : Int) - 48)) 0)

/-- `parseCPU`: `undefined`/`null` → 256; a string → `parseInt` with 256 for
`NaN`; a number → itself.  (Values outside the declared `string | number`
type are not modelled and map to the default.) -/
def parseCPU (cpu : Option Json) : Int :=
  match cpu with
  | none => 256
  | some Json.null => 256
  | some (Json.str s) => (jsParseInt s).getD 256
  | some (Json.num n) => n
  | some _ => 256

/-- `parseMemory`: as `parseCPU` with default 512. -/
def parseMemory (memory : Option Json) : Int :=
  match memory with
  | none => 512
  | some Json.null => 512
  | some (Json.str s) => (jsParseInt s).getD 512
  | some (Json.num n) => n
  | some _ => 512

/-- `\w` or hyphen: the character class `[\w-]` of `extractArnFamily`. -/
def isWordOrHyphen (c : Char) : Bool := isWordChar c || c == '-'

/-- The regex search `/task-definition\/([\w-]+):/` over the characters of
the ARN: at the first position where the literal `task-definition/` is
followed by a non-empty run of `[\w-]` characters and then a colon, capture
that run. -/
def findTaskFamily : List Char → Option String
  | [] => none
  | c :: rest =>
      if (c :: rest).take 16 == "task-definition/".toList then
        let after := (c :: rest).drop 16
        let run := after.takeWhile isWordOrHyphen
        if ¬ run.isEmpty ∧ (after.drop run.length).head? = some ':' then
          some (String.mk run)
        else findTaskFamily rest
      else findTaskFamily rest

/-- `extractArnFamily`: `if (!arn) return null` — both an absent ARN and the
empty string are falsy — then the regex capture. -/
def extractArnFamily (arn : Option String) : Option String :=
  match arn with
  | none => none
  | some a => if a == "" then none else findTaskFamily a.toList

/-- The body of `parseECSTask` after a successful `JSON.parse`.
`td` is `taskDef.taskDefinition ?? taskDef` (the wrapped form; `??` also
falls back on a `null` field).  Property accesses on a non-object document
(including an array document) yield `undefined`, so every field falls back
to its default.  The source also reads `td.containerDefinitions ?? []` into
an unused binding. -/
def parseECSTaskJson (taskDef : Json) : NormalizedInfra :=
  let td := match getField taskDef "taskDefinition" with
    | some Json.null => taskDef
    | some v => v
    | none => taskDef
  let cpu := parseCPU (getField td "cpu")
  let memory := parseMemory (getField td "memory")
  let launchType :=
    match getField td "requiresCompatibilities" with
    | some (Json.arr xs) =>
        if xs.any (fun j => match j with | Json.str s => s == "FARGATE" | _ => false)
        then "FARGATE" else "EC2"
    | _ => "EC2"
  let taskDefinitionArn := match getField td "taskDefinitionArn" with
    | some (Json.str s) => some s
    | _ => none
  let family := match getField td "family" with
    | some (Json.str s) => some s
    | _ => extractArnFamily taskDefinitionArn
  { ecs := some [{ name := family.getD "ecs-task",
                   desiredCount := 1,
                   cpu := cpu,
                   memory := memory,
                   launchType := launchType }] }

/-- `parseECSTask`: the input is the result of `JSON.parse(content)` —
`none` when the content is not valid JSON.  On invalid JSON the first
`JSON.parse` throws and the `catch` block re-parses the *same* string, which
throws again, so the function returns the empty model.  Note the
consequence: the `catch` branch intended to unwrap a one-element array
document is unreachable, because `JSON.parse` succeeds on a valid array
document in the first `try` — an array document therefore flows through
`parseECSTaskJson` as an array value, where every property access yields
`undefined`. -/
def parseECSTask (parsed : Option Json) : NormalizedInfra :=
  match parsed with
  | none => {}
  | some taskDef => parseECSTaskJson taskDef

-- ==================== lib/parsers/cdk-parser.ts ====================

/-- The results of the global regex scans of `parseLambdaFunctions` over a
CDK file content:
- `functionNames`: captures of `/(?:const|let|var)\s+(\w+(?:Function|Lambda|Handler|Fn))\s*=/gi`;
- `allMemories`: captures of `/memorySize\s*:\s*(\d+)/gi`;
- `allTimeouts`: second-based captures of the `timeout` regex;
- `allRuntimes`: captures of `/runtime\s*:\s*Runtime\.([\w_]+)/gi`;
- `allArchitectures`: captures of the `architecture` regex;
- `allProvisioned`: positivity of captures of the `provisionedConcurrentExecutions` regex;
- `lambdaInstanceCount`: number of matches of the construct-instantiation
  regex `new ...(Function|NodejsFunction|PythonFunction|GoFunction|JavaFunction)(`.
On content with no Lambda construct and none of these attribute keys — for
example the empty content — every list is empty and the count is zero. -/
structure CDKLambdaScan where
  functionNames : List String
  allMemories : List Int
  allTimeouts : List Int
  allRuntimes : List String
  allArchitectures : List String
  allProvisioned : List Bool
  lambdaInstanceCount : Nat
deriving DecidableEq, Repr

/-- The assembly phase of `parseLambdaFunctions`:
`count = Math.max(lambdaInstances.length, functionNames.length, 1)` entries
are built, pairing the scan lists positionally with the documented defaults
for missing positions, and the lambda section is emitted when the built list
is non-empty (the source guard `if (functions.length > 0)`). -/
def parseLambdaFunctions (scan : CDKLambdaScan) : Option (List LambdaFn) :=
  let count := Nat.max (Nat.max scan.lambdaInstanceCount scan.functionNames.length) 1
  let functions := (List.range count).map fun i =>
    let idx := i + 1
    { name := scan.functionNames.getD i s!"lambda-function-{idx}"
      memory := scan.allMemories.getD i 128
      timeout := scan.allTimeouts.getD i 30
      runtime := scan.allRuntimes.getD i "NODEJS_20_X"
      provisioned := scan.allProvisioned.getD i false
      architecture := scan.allArchitectures.getD i "X86_64" : LambdaFn }
  if functions.length > 0 then some functions else none

/-- The scan of content containing no Lambda construct and no Lambda
attribute key (e.g. the empty string `""`): every regex matches nothing. -/
def emptyContentScan : CDKLambdaScan :=
  { functionNames := []
    allMemories := []
    allTimeouts := []
    allRuntimes := []
    allArchitectures := []
    allProvisioned := []
    lambdaInstanceCount := 0 }

-- ==================== lib/engine/anti-patterns.ts (spec-modelled) ====================

/-- Modelled from the spec: `lib/engine/anti-patterns.ts` is not among the
sources (only its caller `app/api/analyze/route.ts` is).  The severity rank
of the stated total order `critical < high < medium < low`. -/
def severityRank : Severity → Nat
  | .critical => 0
  | .high => 1
  | .medium => 2
  | .low => 3

/-- Modelled from the spec: the comparison used by the missing
`detectAntiPatterns` orders encounter-indexed findings by severity rank
ascending, then monthly saving descending, then encounter index ascending
(ties resolved by original encounter order = a stable sort). -/
def findingLE (a b : Nat × DetectedIssue) : Bool :=
  decide (severityRank a.2.severity < severityRank b.2.severity) ||
  (decide (severityRank a.2.severity = severityRank b.2.severity) &&
    (decide (b.2.saving < a.2.saving) ||
      (decide (a.2.saving = b.2.saving) && decide (a.1 ≤ b.1))))

/-- Modelled from the spec: `Evaluate` runs every registered rule against
the full model; each rule is pure, so the per-rule fault isolation of the
spec never fires, and the raw findings are the registry-ordered
concatenation of the per-rule results (the encounter order). -/
def rawFindings (infra : NormalizedInfra) : List DetectedIssue :=
  ALL_RULES.flatMap (fun rule => rule.check infra)

/-- Modelled from the spec: the missing `detectAntiPatterns` sorts the raw
findings into the stable total order — severity rank ascending, monthly
saving descending within equal severity, encounter order on ties. -/
def detectAntiPatterns (infra : NormalizedInfra) : List DetectedIssue :=
  (((rawFindings infra).enum).mergeSort findingLE).map Prod.snd

-- ==================== Singleton models used by the scenarios ====================

/-- A model holding exactly one S3 bucket. -/
def singleBucketInfra (b : S3Bucket) : NormalizedInfra := { s3 := some [b] }

/-- A model holding exactly one Lambda function. -/
def singleLambdaInfra (fn : LambdaFn) : NormalizedInfra := { lambda := some [fn] }

/-- A model holding exactly one ECS service. -/
def singleEcsInfra (svc : ECSService) : NormalizedInfra := { ecs := some [svc] }

-- ==================== Claim-side definitions ====================

/-- The quick-win predicate as the specification words it: any env-mismatch
finding, any S3 missing-feature finding, or any low-severity CloudFront
finding. -/
def specQuickWin (i : DetectedIssue) : Bool :=
  decide (i.category = Category.envMismatch) ||
  (decide (i.service = "S3") && decide (i.category = Category.missingFeature)) ||
  (decide (i.service = "CloudFront") && decide (i.severity = Severity.low))

/-- The medium-effort predicate as the specification words it: any
overprovisioned finding for Lambda, RDS, or ECS. -/
def specMediumEffort (i : DetectedIssue) : Bool :=
  decide (i.category = Category.overprovisioned) &&
  (decide (i.service = "Lambda") || decide (i.service = "RDS") || decide (i.service = "ECS"))

/-- The files an in-limit archive extraction keeps: the non-directory,
supported-extension, text-decodable members in iteration order. -/
def extractedOf (entries : List ZipEntry) : List ExtractedFile :=
  (entries.filter (fun e => !e.dir && isSupportedFile e.name && e.text.isSome)).map
    (fun e => { name := e.name, content := e.text.getD "", size := (e.text.getD "").length })

/-- The total NAT-gateway count of a model: the source's
`gateways.reduce((sum, gw) => sum + gw.count, 0)` over the (possibly absent)
group array. -/
def natTotal (m : NormalizedInfra) : Int :=
  (m.nat.getD []).foldl (fun s gw => s + gw.count) 0

/-- A concrete partial model: one oversized Lambda function and a NAT group
of count 2 (as a CDK archive member would produce). -/
def sampleInfraA : NormalizedInfra :=
  { lambda := some [{ name := "workerFunction", memory := 4096, timeout := 900,
                      runtime := "NODEJS_20_X", provisioned := false,
                      architecture := "X86_64" }],
    nat := some [{ name := "vpc-nat-gateway", count := 2 }] }

/-- A concrete partial model: one S3 bucket and a NAT group of count 2. -/
def sampleInfraB : NormalizedInfra :=
  { s3 := some [{ name := "logs", hasLifecyclePolicy := false,
                  hasIntelligentTiering := false, versioningEnabled := false,
                  publicAccess := true }],
    nat := some [{ name := "nat-gateway", count := 2 }] }

/-- A concrete whole-unit finding, as rule-01 would produce it. -/
def sampleIssueLambda : DetectedIssue :=
  { id := "rule-01-workerfunction", service := "Lambda", issue := "Overprovisioned Memory",
    description := "sample", severity := .high, category := .overprovisioned,
    currentConfig := "4096MB memory", recommendedConfig := "1024MB",
    currentCost := 135, optimizedCost := 35, saving := 100, savingPercent := 74.1,
    resourceName := "workerFunction" }

/-- A concrete whole-unit finding, as rule-09 would produce it. -/
def sampleIssueS3 : DetectedIssue :=
  { id := "rule-09-logs", service := "S3", issue := "No Lifecycle Policy",
    description := "sample", severity := .medium, category := .missingFeature,
    currentConfig := "S3 Standard", recommendedConfig := "Lifecycle",
    currentCost := 12, optimizedCost := 7, saving := 4, savingPercent := 38.3,
    resourceName := "logs" }

-- ==================== Theorems ====================

/-- C1: for a model with a single S3 bucket, rule-09 produces a finding
exactly when the bucket has no lifecycle policy, rule-10 produces a finding
exactly when the bucket has a lifecycle policy but no intelligent tiering,
and in particular a bucket with neither triggers rule-09 and not rule-10. -/
theorem rule09_rule10_single_bucket (b : S3Bucket) :
    ((s3NoLifecycle.check (singleBucketInfra b)).length
        = if b.hasLifecyclePolicy then 0 else 1)
  ∧ ((s3NoIntelligentTiering.check (singleBucketInfra b)).length
        = if ¬ b.hasIntelligentTiering ∧ b.hasLifecyclePolicy then 1 else 0)
  ∧ (b.hasLifecyclePolicy = false → b.hasIntelligentTiering = false →
        (s3NoLifecycle.check (singleBucketInfra b)).length = 1
        ∧ s3NoIntelligentTiering.check (singleBucketInfra b) = []) := by
  rcases b with ⟨nm, lc, it, vr, pa⟩
  cases lc <;> cases it <;>
    simp [s3NoLifecycle, s3NoIntelligentTiering, singleBucketInfra]

/-- Witness for C1: a bucket with neither lifecycle policy nor intelligent
tiering fires rule-09 once and rule-10 not at all. -/
theorem rule09_rule10_single_bucket_witness :
    (s3NoLifecycle.check (singleBucketInfra ⟨"logs", false, false, false, true⟩)).length = 1
  ∧ s3NoIntelligentTiering.check (singleBucketInfra ⟨"logs", false, false, false, true⟩) = [] :=
  (rule09_rule10_single_bucket ⟨"logs", false, false, false, true⟩).2.2 rfl rfl

/-- C9: for a model with a single Lambda function, rule-01 produces exactly
one finding when the memory exceeds 2048 and none otherwise. -/
theorem rule01_single_lambda (fn : LambdaFn) :
    (lambdaOverprovisionedMemory.check (singleLambdaInfra fn)).length
      = if fn.memory > 2048 then 1 else 0 := by
  rcases fn with ⟨nm, mem, tmo, rt, pr, ar⟩
  by_cases h : mem > 2048 <;>
    simp [lambdaOverprovisionedMemory, singleLambdaInfra, h]

/-- C10: rule-05 fires for exactly the ECS services with `desiredCount > 2`;
the non-production name check is computed but not part of the firing
condition, so the service name is irrelevant. -/
theorem rule05_fires_regardless_of_name :
    (∀ infra : NormalizedInfra,
      (ecsOverScaled.check infra).length
        = ((infra.ecs.getD []).filter (fun svc => decide (svc.desiredCount > 2))).length)
  ∧ (∀ (svc : ECSService) (newName : String),
      (ecsOverScaled.check (singleEcsInfra { svc with name := newName })).length
        = if svc.desiredCount > 2 then 1 else 0) := by
  constructor
  · intro infra
    show ((infra.ecs.getD []).flatMap _).length = _
    induction infra.ecs.getD [] with
    | nil => rfl
    | cons svc rest ih =>
        by_cases h : svc.desiredCount > 2 <;>
          simp [ecsOverScaled, h, List.filter_cons] at ih ⊢ <;> omega
  · intro svc newName
    by_cases h : svc.desiredCount > 2 <;>
      simp [ecsOverScaled, singleEcsInfra, h]

/-- C5 (failing case): the CDK Lambda extraction emits a lambda collection
even for content containing no Lambda construct at all — the scan of such
content (for example the empty string) produces empty lists, yet the
assembly builds `Math.max(0, 0, 1) = 1` placeholder entry, so the guard
`if (functions.length > 0)` is vacuous and the collection is emitted with
the placeholder function. -/
theorem cdk_lambda_emitted_without_construct :
    parseLambdaFunctions emptyContentScan
      = some [{ name := "lambda-function-1", memory := 128, timeout := 30,
                runtime := "NODEJS_20_X", provisioned := false, architecture := "X86_64" }]
  ∧ parseLambdaFunctions emptyContentScan ≠ none := by
  refine ⟨rfl, ?_⟩
  decide

/-- C6 (failing case): `parseECSTask` yields identical entries for the
unwrapped and `taskDefinition`-wrapped forms of a task definition, but a
one-element array document is *not* unwrapped: `JSON.parse` succeeds on the
array, the `catch` branch meant to handle arrays is unreachable, every
property access on the array yields `undefined`, and the result is the
all-defaults entry instead of the parsed one. -/
theorem parseECSTask_array_not_unwrapped :
    (parseECSTask (some (Json.obj [("family", Json.str "api-service"),
        ("cpu", Json.str "4096"), ("memory", Json.str "16384"),
        ("requiresCompatibilities", Json.arr [Json.str "FARGATE"])]))).ecs
      = some [{ name := "api-service", desiredCount := 1, cpu := 4096,
                memory := 16384, launchType := "FARGATE" }]
  ∧ parseECSTask (some (Json.obj [("taskDefinition",
        Json.obj [("family", Json.str "api-service"),
          ("cpu", Json.str "4096"), ("memory", Json.str "16384"),
          ("requiresCompatibilities", Json.arr [Json.str "FARGATE"])])]))
      = parseECSTask (some (Json.obj [("family", Json.str "api-service"),
          ("cpu", Json.str "4096"), ("memory", Json.str "16384"),
          ("requiresCompatibilities", Json.arr [Json.str "FARGATE"])]))
  ∧ (parseECSTask (some (Json.arr [Json.obj [("family", Json.str "api-service"),
        ("cpu", Json.str "4096"), ("memory", Json.str "16384"),
        ("requiresCompatibilities", Json.arr [Json.str "FARGATE"])]]))).ecs
      = some [{ name := "ecs-task", desiredCount := 1, cpu := 256,
                memory := 512, launchType := "EC2" }]
  ∧ (parseECSTask (some (Json.arr [Json.obj [("family", Json.str "api-service"),
        ("cpu", Json.str "4096"), ("memory", Json.str "16384"),
        ("requiresCompatibilities", Json.arr [Json.str "FARGATE"])]]))).ecs
      ≠ (parseECSTask (some (Json.obj [("family", Json.str "api-service"),
          ("cpu", Json.str "4096"), ("memory", Json.str "16384"),
          ("requiresCompatibilities", Json.arr [Json.str "FARGATE"])]))).ecs := by
  refine ⟨rfl, rfl, rfl, ?_⟩
  decide

/-- The quick-win and medium-effort predicates are mutually exclusive: a
quick win is never an overprovisioned Lambda/RDS/ECS finding. -/
theorem specQuickWin_not_mediumEffort (i : DetectedIssue) :
    specQuickWin i = true → specMediumEffort i = false := by
  intro h
  apply Bool.eq_false_iff.mpr
  intro hm
  simp only [specQuickWin, Bool.or_eq_true, Bool.and_eq_true, decide_eq_true_eq] at h
  simp only [specMediumEffort, Bool.and_eq_true, Bool.or_eq_true, decide_eq_true_eq] at hm
  obtain ⟨hcat, hsvc⟩ := hm
  rcases h with (h | ⟨hs, hc⟩) | ⟨hs2, hlow⟩
  · rw [h] at hcat
    exact Category.noConfusion hcat
  · rw [hc] at hcat
    exact Category.noConfusion hcat
  · rcases hsvc with (hsvc | hsvc) | hsvc <;> rw [hsvc] at hs2 <;> simp at hs2

/-- The effect of the classification loop from an arbitrary accumulator:
each of the three lists receives exactly the issues its predicate selects,
in encounter order. -/
theorem roadmap_foldl_spec (issues : List DetectedIssue) :
    ∀ acc : OptimizationRoadmap,
      (issues.foldl roadmapStep acc).quickWins
          = acc.quickWins ++ issues.filter specQuickWin
    ∧ (issues.foldl roadmapStep acc).mediumEffort
          = acc.mediumEffort ++ issues.filter specMediumEffort
    ∧ (issues.foldl roadmapStep acc).needsPlanning
          = acc.needsPlanning ++
              issues.filter (fun i => !(specQuickWin i) && !(specMediumEffort i)) := by
  induction issues with
  | nil => intro acc; simp
  | cons i rest ih =>
      intro acc
      by_cases h1 : i.category = Category.envMismatch ∨
          (i.service = "CloudFront" ∧ i.severity = Severity.low) ∨
          (i.service = "S3" ∧ i.category = Category.missingFeature)
      · have hq : specQuickWin i = true := by
          simp only [specQuickWin, Bool.or_eq_true, Bool.and_eq_true, decide_eq_true_eq]
          tauto
        have hm : specMediumEffort i = false := specQuickWin_not_mediumEffort i hq
        have hstep : roadmapStep acc i = { acc with quickWins := acc.quickWins ++ [i] } := by
          simp only [roadmapStep]
          rw [if_pos h1]
        rw [List.foldl_cons, hstep]
        obtain ⟨e1, e2, e3⟩ := ih { acc with quickWins := acc.quickWins ++ [i] }
        refine ⟨?_, ?_, ?_⟩
        · rw [e1]; simp [List.filter_cons, hq]
        · rw [e2]; simp [List.filter_cons, hm]
        · rw [e3]; simp [List.filter_cons, hq, hm]
      · have hq : specQuickWin i = false := by
          apply Bool.eq_false_iff.mpr
          intro hq
          simp only [specQuickWin, Bool.or_eq_true, Bool.and_eq_true, decide_eq_true_eq] at hq
          exact h1 (by tauto)
        by_cases h2 : i.category = Category.overprovisioned ∧
            (i.service = "Lambda" ∨ i.service = "RDS" ∨ i.service = "ECS")
        · have hm : specMediumEffort i = true := by
            simp only [specMediumEffort, Bool.and_eq_true, Bool.or_eq_true, decide_eq_true_eq]
            tauto
          have hstep : roadmapStep acc i
              = { acc with mediumEffort := acc.mediumEffort ++ [i] } := by
            simp only [roadmapStep]
            rw [if_neg h1, if_pos h2]
          rw [List.foldl_cons, hstep]
          obtain ⟨e1, e2, e3⟩ := ih { acc with mediumEffort := acc.mediumEffort ++ [i] }
          refine ⟨?_, ?_, ?_⟩
          · rw [e1]; simp [List.filter_cons, hq]
          · rw [e2]; simp [List.filter_cons, hm]
          · rw [e3]; simp [List.filter_cons, hq, hm]
        · have hm : specMediumEffort i = false := by
            apply Bool.eq_false_iff.mpr
            intro hm
            simp only [specMediumEffort, Bool.and_eq_true, Bool.or_eq_true,
              decide_eq_true_eq] at hm
            exact h2 (by tauto)
          have hstep : roadmapStep acc i
              = { acc with needsPlanning := acc.needsPlanning ++ [i] } := by
            simp only [roadmapStep]
            rw [if_neg h1, if_neg h2]
          rw [List.foldl_cons, hstep]
          obtain ⟨e1, e2, e3⟩ := ih { acc with needsPlanning := acc.needsPlanning ++ [i] }
          refine ⟨?_, ?_, ?_⟩
          · rw [e1]; simp [List.filter_cons, hq]
          · rw [e2]; simp [List.filter_cons, hm]
          · rw [e3]; simp [List.filter_cons, hq, hm]

/-- Filtering a list by two mutually exclusive predicates and by their joint
complement partitions it, up to permutation. -/
theorem filter_partition_perm {α : Type} (p q : α → Bool)
    (hdisj : ∀ a, p a = true → q a = false) :
    ∀ l : List α,
      (l.filter p ++ (l.filter q ++ l.filter (fun a => !(p a) && !(q a)))).Perm l := by
  intro l
  induction l with
  | nil => simp
  | cons a t ih =>
      rcases hp : p a with _ | _
      · rcases hq : q a with _ | _
        · -- a goes to the complement list
          simp only [List.filter_cons, hp, hq, Bool.not_false, Bool.and_self, if_true]
          exact ((List.Perm.append_left (t.filter p) List.perm_middle).trans
            List.perm_middle).trans (ih.cons a)
        · -- a goes to the q list
          simp [List.filter_cons, hp, hq]
          exact List.perm_middle.trans (ih.cons a)
      · -- a goes to the p list
        have hq := hdisj a hp
        simp [List.filter_cons, hp, hq]
        exact ih

/-- C8: `buildOptimizationRoadmap` partitions every findings list into three
disjoint lists covering all findings by the fixed table — env-mismatch, S3
missing-feature, and low-severity CloudFront findings are quick wins;
overprovisioned Lambda/RDS/ECS findings are medium effort; everything else
needs planning. -/
theorem buildOptimizationRoadmap_partition (issues : List DetectedIssue) :
    (buildOptimizationRoadmap issues).quickWins = issues.filter specQuickWin
  ∧ (buildOptimizationRoadmap issues).mediumEffort = issues.filter specMediumEffort
  ∧ (buildOptimizationRoadmap issues).needsPlanning
      = issues.filter (fun i => !(specQuickWin i) && !(specMediumEffort i))
  ∧ ((buildOptimizationRoadmap issues).quickWins ++
      (buildOptimizationRoadmap issues).mediumEffort ++
      (buildOptimizationRoadmap issues).needsPlanning).Perm issues := by
  obtain ⟨e1, e2, e3⟩ :=
    roadmap_foldl_spec issues { quickWins := [], mediumEffort := [], needsPlanning := [] }
  have e1 : (buildOptimizationRoadmap issues).quickWins = issues.filter specQuickWin := by
    simpa [buildOptimizationRoadmap] using e1
  have e2 : (buildOptimizationRoadmap issues).mediumEffort = issues.filter specMediumEffort := by
    simpa [buildOptimizationRoadmap] using e2
  have e3 : (buildOptimizationRoadmap issues).needsPlanning
      = issues.filter (fun i => !(specQuickWin i) && !(specMediumEffort i)) := by
    simpa [buildOptimizationRoadmap] using e3
  refine ⟨e1, e2, e3, ?_⟩
  rw [e1, e2, e3, List.append_assoc]
  exact filter_partition_perm specQuickWin specMediumEffort specQuickWin_not_mediumEffort issues

/-- The per-member extraction loop from an arbitrary accumulator appends
exactly the kept members. -/
theorem zip_foldl_spec (entries : List ZipEntry) :
    ∀ acc : List ExtractedFile,
      entries.foldl zipStep acc = acc ++ extractedOf entries := by
  induction entries with
  | nil => intro acc; simp [extractedOf]
  | cons e rest ih =>
      intro acc
      by_cases hd : e.dir
      · simp [List.foldl_cons, zipStep, hd, ih, extractedOf, List.filter_cons]
      · by_cases hs : isSupportedFile e.name
        · cases ht : e.text with
          | some c =>
              simp [List.foldl_cons, zipStep, hd, hs, ht, ih, extractedOf, List.filter_cons]
          | none =>
              simp [List.foldl_cons, zipStep, hd, hs, ht, ih, extractedOf, List.filter_cons]
        · simp [List.foldl_cons, zipStep, hd, hs, ih, extractedOf, List.filter_cons]

/-- C7: archive expansion throws exactly (and only) when the member count
exceeds the configured maximum of 50, yielding no partial result; an archive
at or under the limit always succeeds, skipping the non-text-decodable
members and keeping every other supported member. -/
theorem extractZip_limit_and_skip (entries : List ZipEntry) :
    (entries.length > APP_CONFIG.maxFilesInZip →
        ∃ msg, extractZip entries = Except.error msg)
  ∧ (entries.length ≤ APP_CONFIG.maxFilesInZip →
        extractZip entries = Except.ok (extractedOf entries)) := by
  constructor
  · intro h
    simp [extractZip, h]
  · intro h
    simp only [extractZip]
    rw [if_neg (by omega), zip_foldl_spec entries []]
    simp

/-- Witness for C7: a 51-member archive is rejected; a 3-member archive with
one binary (non-decodable) member and one unsupported name succeeds and
keeps exactly the remaining member. -/
theorem extractZip_limit_and_skip_witness :
    (∃ msg, extractZip (List.replicate 51 { name := "a.ts", dir := false, text := some "" })
        = Except.error msg)
  ∧ extractZip [{ name := "a.tf", dir := false, text := some "x" },
                { name := "b.png", dir := false, text := none },
                { name := "c.txt", dir := false, text := some "y" }]
      = Except.ok (extractedOf [{ name := "a.tf", dir := false, text := some "x" },
                                { name := "b.png", dir := false, text := none },
                                { name := "c.txt", dir := false, text := some "y" }])
  ∧ extractedOf [{ name := "a.tf", dir := false, text := some "x" },
                 { name := "b.png", dir := false, text := none },
                 { name := "c.txt", dir := false, text := some "y" }]
      = [{ name := "a.tf", content := "x", size := 1 }] :=
  ⟨(extractZip_limit_and_skip _).1 (by decide),
   (extractZip_limit_and_skip _).2 (by decide),
   by decide⟩

/-- Merging two members pairwise-commutes on any non-NAT collection: the
merged array is a permutation (concatenation in the two orders). -/
theorem mergeColl_pair_perm {α : Type} (a b : Option (List α)) :
    ((mergeColl (mergeColl none a) b).getD []).Perm
      ((mergeColl (mergeColl none b) a).getD []) := by
  rcases a with _ | la
  · rcases b with _ | lb
    · exact List.Perm.refl _
    · by_cases hlb : lb.isEmpty <;> simp [mergeColl, hlb]
  · rcases b with _ | lb
    · by_cases hla : la.isEmpty <;> simp [mergeColl, hla]
    · by_cases hla : la.isEmpty <;> by_cases hlb : lb.isEmpty
      · simp [mergeColl, hla, hlb]
      · simp [mergeColl, hla, hlb]
      · simp [mergeColl, hla, hlb]
      · simp [mergeColl, hla, hlb]
        exact List.perm_append_comm

/-- Merging two members sums their NAT counts (models carry at most one NAT
group, per the data model). -/
theorem mergeNat_pair_total (a b : Option (List NATGroup))
    (ha : (a.getD []).length ≤ 1) (hb : (b.getD []).length ≤ 1) :
    ((mergeNat (mergeNat none a) b).getD []).foldl (fun s gw => s + gw.count) 0
      = (a.getD []).foldl (fun s gw => s + gw.count) 0
        + (b.getD []).foldl (fun s gw => s + gw.count) 0 := by
  rcases a with _ | la
  · rcases b with _ | lb
    · simp [mergeNat]
    · rcases lb with _ | ⟨y, _ | ⟨z, lb3⟩⟩
      · simp [mergeNat]
      · simp [mergeNat]
      · simp at hb
  · rcases b with _ | lb
    · rcases la with _ | ⟨x, _ | ⟨w, la3⟩⟩
      · simp [mergeNat]
      · simp [mergeNat]
      · simp at ha
    · rcases la with _ | ⟨x, _ | ⟨w, la3⟩⟩
      · rcases lb with _ | ⟨y, _ | ⟨z, lb3⟩⟩
        · simp [mergeNat]
        · simp [mergeNat]
        · simp at hb
      · rcases lb with _ | ⟨y, _ | ⟨z, lb3⟩⟩
        · simp [mergeNat]
        · simp [mergeNat]
          try omega
        · simp at hb
      · simp at ha

/-- C3: for partial models `A` and `B` (each carrying at most one NAT-gateway
group, as the data model specifies), merging `[A, B]` and `[B, A]` yields
permutation-equal record lists for every collection except NAT gateways, and
the merged NAT total count is the sum of the two models' counts in both
orders. -/
theorem mergeNormalizedInfra_pair_comm (A B : NormalizedInfra)
    (hA : (A.nat.getD []).length ≤ 1) (hB : (B.nat.getD []).length ≤ 1) :
    ((mergeNormalizedInfra [A, B]).lambda.getD []).Perm
        ((mergeNormalizedInfra [B, A]).lambda.getD [])
  ∧ ((mergeNormalizedInfra [A, B]).rds.getD []).Perm
        ((mergeNormalizedInfra [B, A]).rds.getD [])
  ∧ ((mergeNormalizedInfra [A, B]).ecs.getD []).Perm
        ((mergeNormalizedInfra [B, A]).ecs.getD [])
  ∧ ((mergeNormalizedInfra [A, B]).apiGateway.getD []).Perm
        ((mergeNormalizedInfra [B, A]).apiGateway.getD [])
  ∧ ((mergeNormalizedInfra [A, B]).s3.getD []).Perm
        ((mergeNormalizedInfra [B, A]).s3.getD [])
  ∧ ((mergeNormalizedInfra [A, B]).ec2.getD []).Perm
        ((mergeNormalizedInfra [B, A]).ec2.getD [])
  ∧ ((mergeNormalizedInfra [A, B]).dynamodb.getD []).Perm
        ((mergeNormalizedInfra [B, A]).dynamodb.getD [])
  ∧ ((mergeNormalizedInfra [A, B]).cloudfront.getD []).Perm
        ((mergeNormalizedInfra [B, A]).cloudfront.getD [])
  ∧ ((mergeNormalizedInfra [A, B]).elasticache.getD []).Perm
        ((mergeNormalizedInfra [B, A]).elasticache.getD [])
  ∧ (natTotal (mergeNormalizedInfra [A, B]) = natTotal A + natTotal B
      ∧ natTotal (mergeNormalizedInfra [B, A]) = natTotal A + natTotal B) :=
  ⟨mergeColl_pair_perm A.lambda B.lambda,
   mergeColl_pair_perm A.rds B.rds,
   mergeColl_pair_perm A.ecs B.ecs,
   mergeColl_pair_perm A.apiGateway B.apiGateway,
   mergeColl_pair_perm A.s3 B.s3,
   mergeColl_pair_perm A.ec2 B.ec2,
   mergeColl_pair_perm A.dynamodb B.dynamodb,
   mergeColl_pair_perm A.cloudfront B.cloudfront,
   mergeColl_pair_perm A.elasticache B.elasticache,
   mergeNat_pair_total A.nat B.nat hA hB,
   by
     show ((mergeNat (mergeNat none B.nat) A.nat).getD []).foldl (fun s gw => s + gw.count) 0
         = natTotal A + natTotal B
     rw [mergeNat_pair_total B.nat A.nat hB hA]
     exact Int.add_comm _ _⟩

/-- Witness for C3: two concrete one-NAT-group members merge to total
count 4 in both orders. -/
theorem mergeNormalizedInfra_pair_comm_witness :
    (sampleInfraA.nat.getD []).length ≤ 1
  ∧ (sampleInfraB.nat.getD []).length ≤ 1
  ∧ (natTotal (mergeNormalizedInfra [sampleInfraA, sampleInfraB])
        = natTotal sampleInfraA + natTotal sampleInfraB
      ∧ natTotal (mergeNormalizedInfra [sampleInfraB, sampleInfraA])
        = natTotal sampleInfraA + natTotal sampleInfraB) :=
  ⟨by decide, by decide,
   (mergeNormalizedInfra_pair_comm sampleInfraA sampleInfraB
      (by decide) (by decide)).2.2.2.2.2.2.2.2.2⟩

/-- A sum of two whole-unit rationals is whole-unit. -/
theorem den_one_add {q r : ℚ} (hq : q.den = 1) (hr : r.den = 1) : (q + r).den = 1 := by
  have hq2 := (Rat.den_eq_one_iff q).mp hq
  have hr2 := (Rat.den_eq_one_iff r).mp hr
  have : q + r = ((q.num + r.num : ℤ) : ℚ) := by push_cast [hq2, hr2]; ring
  rw [this]
  exact Rat.den_intCast _

/-- A difference of two whole-unit rationals is whole-unit. -/
theorem den_one_sub {q r : ℚ} (hq : q.den = 1) (hr : r.den = 1) : (q - r).den = 1 := by
  have hq2 := (Rat.den_eq_one_iff q).mp hq
  have hr2 := (Rat.den_eq_one_iff r).mp hr
  have : q - r = ((q.num - r.num : ℤ) : ℚ) := by push_cast [hq2, hr2]; ring
  rw [this]
  exact Rat.den_intCast _

/-- A sum of a list of whole-unit rationals is whole-unit. -/
theorem den_one_sum {l : List ℚ} (h : ∀ x ∈ l, x.den = 1) : l.sum.den = 1 := by
  induction l with
  | nil => rfl
  | cons x t ih =>
      rw [List.sum_cons]
      exact den_one_add (h x (List.mem_cons_self x t))
        (ih (fun y hy => h y (List.mem_cons_of_mem x hy)))

/-- `Math.round` is the identity on whole-unit values. -/
theorem jround_den_one {x : ℚ} (h : x.den = 1) : (jround x : ℚ) = x := by
  have hx := (Rat.den_eq_one_iff x).mp h
  unfold jround
  rw [← hx, Int.floor_int_add, show ⌊(1 / 2 : ℚ)⌋ = 0 from by norm_num]
  push_cast
  ring

/-- Summing the per-entry savings of a breakdown whose entries satisfy
`saving = current - optimized` gives the difference of the column sums. -/
theorem breakdown_sum_sub {l : List CostBreakdown}
    (h : ∀ b ∈ l, b.monthlySaving = b.currentMonthlyCost - b.optimizedMonthlyCost) :
    (l.map (fun b => b.monthlySaving)).sum
      = (l.map (fun b => b.currentMonthlyCost)).sum
        - (l.map (fun b => b.optimizedMonthlyCost)).sum := by
  induction l with
  | nil => simp
  | cons b t ih =>
      simp only [List.map_cons, List.sum_cons]
      rw [h b (List.mem_cons_self b t),
        ih (fun c hc => h c (List.mem_cons_of_mem b hc))]
      ring

/-- Every entry of the sorted breakdown has whole-unit current and optimized
costs, and its saving is exactly their difference, when the findings carry
whole-unit costs. -/
theorem sortedBreakdown_entries (issues : List DetectedIssue)
    (h : ∀ i ∈ issues, i.currentCost.den = 1 ∧ i.optimizedCost.den = 1) :
    ∀ b ∈ sortedBreakdown issues,
      b.monthlySaving = b.currentMonthlyCost - b.optimizedMonthlyCost
      ∧ b.currentMonthlyCost.den = 1 ∧ b.optimizedMonthlyCost.den = 1 := by
  intro b hb
  rw [sortedBreakdown, List.mem_mergeSort] at hb
  obtain ⟨s, hs, rfl⟩ := List.mem_map.mp hb
  have hcur :
      ((issues.filter (fun i => i.service == s)).map (fun i : DetectedIssue => i.currentCost)).sum.den = 1 := by
    apply den_one_sum
    intro x hx
    obtain ⟨i, hi, rfl⟩ := List.mem_map.mp hx
    exact (h i (List.mem_of_mem_filter hi)).1
  have hopt :
      ((issues.filter (fun i => i.service == s)).map (fun i : DetectedIssue => i.optimizedCost)).sum.den = 1 := by
    apply den_one_sum
    intro x hx
    obtain ⟨i, hi, rfl⟩ := List.mem_map.mp hx
    exact (h i (List.mem_of_mem_filter hi)).2
  refine ⟨?_, ?_, ?_⟩
  · show (jround (_ - _) : ℚ) = (jround _ : ℚ) - (jround _ : ℚ)
    rw [jround_den_one hcur, jround_den_one hopt, jround_den_one (den_one_sub hcur hopt)]
  · exact Rat.den_intCast _
  · exact Rat.den_intCast _

/-- C4: with whole-unit findings (costs in whole currency units, as every
rule produces via `Math.round`), the breakdown savings sum exactly to
`totalMonthlySaving`: rounding happens once, at aggregation, on values that
are already integral, so the per-service rounded sums and the rounded total
agree. -/
theorem calculateCostSummary_saving_sum (issues : List DetectedIssue)
    (h : ∀ i ∈ issues, i.currentCost.den = 1 ∧ i.optimizedCost.den = 1) :
    (((calculateCostSummary issues).breakdown).map (fun b => b.monthlySaving)).sum
      = (calculateCostSummary issues).totalMonthlySaving := by
  have hentry := sortedBreakdown_entries issues h
  have hTcur : ((sortedBreakdown issues).map (fun b : CostBreakdown => b.currentMonthlyCost)).sum.den = 1 := by
    apply den_one_sum
    intro x hx
    obtain ⟨b, hb, rfl⟩ := List.mem_map.mp hx
    exact (hentry b hb).2.1
  have hTopt : ((sortedBreakdown issues).map (fun b : CostBreakdown => b.optimizedMonthlyCost)).sum.den = 1 := by
    apply den_one_sum
    intro x hx
    obtain ⟨b, hb, rfl⟩ := List.mem_map.mp hx
    exact (hentry b hb).2.2
  show ((sortedBreakdown issues).map (fun b => b.monthlySaving)).sum
      = (jround (((sortedBreakdown issues).map (fun b => b.currentMonthlyCost)).sum
          - ((sortedBreakdown issues).map (fun b => b.optimizedMonthlyCost)).sum) : ℚ)
  rw [jround_den_one (den_one_sub hTcur hTopt)]
  exact breakdown_sum_sub (fun b hb => (hentry b hb).1)

/-- Witness for C4: two concrete whole-unit findings from different
services. -/
theorem calculateCostSummary_saving_sum_witness :
    (∀ i ∈ [sampleIssueLambda, sampleIssueS3],
        i.currentCost.den = 1 ∧ i.optimizedCost.den = 1)
  ∧ (((calculateCostSummary [sampleIssueLambda, sampleIssueS3]).breakdown).map
        (fun b => b.monthlySaving)).sum
      = (calculateCostSummary [sampleIssueLambda, sampleIssueS3]).totalMonthlySaving :=
  ⟨by decide, calculateCostSummary_saving_sum _ (by decide)⟩

/-- The tagged-finding comparison, as a proposition. -/
theorem findingLE_iff (a b : Nat × DetectedIssue) :
    findingLE a b = true ↔
      (severityRank a.2.severity < severityRank b.2.severity ∨
        (severityRank a.2.severity = severityRank b.2.severity ∧
          (b.2.saving < a.2.saving ∨ (a.2.saving = b.2.saving ∧ a.1 ≤ b.1)))) := by
  simp [findingLE, Bool.or_eq_true, Bool.and_eq_true, decide_eq_true_eq]

/-- The tagged-finding comparison is transitive. -/
theorem findingLE_trans (a b c : Nat × DetectedIssue)
    (hab : findingLE a b = true) (hbc : findingLE b c = true) :
    findingLE a c = true := by
  rw [findingLE_iff] at hab hbc ⊢
  rcases hab with h1 | ⟨e1, h1⟩
  · rcases hbc with h2 | ⟨e2, h2⟩
    · exact Or.inl (lt_trans h1 h2)
    · exact Or.inl (lt_of_lt_of_eq h1 e2)
  · rcases hbc with h2 | ⟨e2, h2⟩
    · exact Or.inl (lt_of_eq_of_lt e1 h2)
    · refine Or.inr ⟨e1.trans e2, ?_⟩
      rcases h1 with s1 | ⟨es1, i1⟩
      · rcases h2 with s2 | ⟨es2, i2⟩
        · exact Or.inl (lt_trans s2 s1)
        · exact Or.inl (lt_of_eq_of_lt es2.symm s1)
      · rcases h2 with s2 | ⟨es2, i2⟩
        · exact Or.inl (lt_of_lt_of_eq s2 es1.symm)
        · exact Or.inr ⟨es1.trans es2, le_trans i1 i2⟩

/-- The tagged-finding comparison is total. -/
theorem findingLE_total (a b : Nat × DetectedIssue) :
    (findingLE a b || findingLE b a) = true := by
  rw [Bool.or_eq_true, findingLE_iff, findingLE_iff]
  rcases lt_trichotomy (severityRank a.2.severity) (severityRank b.2.severity) with h | h | h
  · exact Or.inl (Or.inl h)
  · rcases lt_trichotomy a.2.saving b.2.saving with hs | hs | hs
    · exact Or.inr (Or.inr ⟨h.symm, Or.inl hs⟩)
    · rcases Nat.le_total a.1 b.1 with hi | hi
      · exact Or.inl (Or.inr ⟨h, Or.inr ⟨hs, hi⟩⟩)
      · exact Or.inr (Or.inr ⟨h.symm, Or.inr ⟨hs.symm, hi⟩⟩)
    · exact Or.inl (Or.inr ⟨h, Or.inl hs⟩)
  · exact Or.inr (Or.inl h)

/-- C2: `Evaluate` output is sorted in the stable total order: adjacent-free
pairwise over the whole output, severity rank is non-decreasing and, within
equal severity, monthly saving is non-increasing (first conjunct); on the
encounter-indexed findings the order is strict — equal-severity equal-saving
ties keep strictly increasing encounter indices, i.e. original encounter
order (second conjunct); and the output is a permutation of the findings the
rules produced in registry order (third conjunct). -/
theorem detectAntiPatterns_sorted_stable (infra : NormalizedInfra) :
    List.Pairwise
      (fun a b : DetectedIssue =>
        severityRank a.severity ≤ severityRank b.severity ∧
          (severityRank a.severity = severityRank b.severity → b.saving ≤ a.saving))
      (detectAntiPatterns infra)
  ∧ List.Pairwise
      (fun a b : Nat × DetectedIssue =>
        severityRank a.2.severity < severityRank b.2.severity ∨
          (severityRank a.2.severity = severityRank b.2.severity ∧
            (b.2.saving < a.2.saving ∨ (a.2.saving = b.2.saving ∧ a.1 < b.1))))
      (((rawFindings infra).enum).mergeSort findingLE)
  ∧ (detectAntiPatterns infra).Perm (rawFindings infra) := by
  have hsortedPW :
      List.Pairwise (fun a b => findingLE a b = true)
        (((rawFindings infra).enum).mergeSort findingLE) :=
    List.sorted_mergeSort findingLE_trans findingLE_total ((rawFindings infra).enum)
  have hperm :
      (((rawFindings infra).enum).mergeSort findingLE).Perm ((rawFindings infra).enum) :=
    List.mergeSort_perm ((rawFindings infra).enum) findingLE
  have hnodup :
      ((((rawFindings infra).enum).mergeSort findingLE).map Prod.fst).Nodup := by
    have h1 : (((rawFindings infra).enum).map Prod.fst).Nodup := by
      rw [List.enum_map_fst]
      exact List.nodup_range _
    exact ((hperm.map Prod.fst).symm).nodup h1
  have hpairNe :
      List.Pairwise (fun a b : Nat × DetectedIssue => a.1 ≠ b.1)
        (((rawFindings infra).enum).mergeSort findingLE) :=
    List.pairwise_map.mp hnodup
  have hstrict :
      List.Pairwise
        (fun a b : Nat × DetectedIssue =>
          severityRank a.2.severity < severityRank b.2.severity ∨
            (severityRank a.2.severity = severityRank b.2.severity ∧
              (b.2.saving < a.2.saving ∨ (a.2.saving = b.2.saving ∧ a.1 < b.1))))
        (((rawFindings infra).enum).mergeSort findingLE) := by
    refine (hsortedPW.and hpairNe).imp ?_
    intro a b hab
    obtain ⟨hle, hne⟩ := hab
    rw [findingLE_iff] at hle
    rcases hle with h | ⟨e, h⟩
    · exact Or.inl h
    · refine Or.inr ⟨e, ?_⟩
      rcases h with h | ⟨hs, hi⟩
      · exact Or.inl h
      · exact Or.inr ⟨hs, lt_of_le_of_ne hi hne⟩
  refine ⟨?_, hstrict, ?_⟩
  · have heq : detectAntiPatterns infra
        = (((rawFindings infra).enum).mergeSort findingLE).map Prod.snd := rfl
    rw [heq, List.pairwise_map]
    refine hstrict.imp ?_
    intro a b hab
    rcases hab with h | ⟨e, h⟩
    · exact ⟨le_of_lt h, fun he => absurd (lt_of_lt_of_eq h he.symm) (lt_irrefl _)⟩
    · refine ⟨le_of_eq e, fun _ => ?_⟩
      rcases h with h | ⟨hs, _⟩
      · exact le_of_lt h
      · exact le_of_eq hs.symm
  · have h2 := hperm.map Prod.snd
    rw [List.enum_map_snd] at h2
    exact h2

end CloudLens
